import Mathlib

/-!
Verification development for the `lucia` Home Assistant custom component
(`custom_components/lucia`), covering the conversation bridging and
session-continuity subsystem:

* `conversation_tracker.py` — `TrackedConversation` / `ConversationTracker`
  (TTL-bounded map from HA conversation ids to A2A context/task ids);
* `conversation.py` — `LuciaConversationEntity._async_handle_message`
  (one conversation turn: session resolution, prompt rendering, wire
  request construction, transport, reply decoding, tracker update).

Python runtime values flowing through the decoder are modelled by the
inductive `Json` (Python `None` is `Json.null`); monotonic time is an
explicit rational parameter; Python exceptions raised inside the bridge
are modelled by `Except String` (the string is `str(err)`); collaborator
behaviour (prompt renderer, HTTP transport) is an explicit input of the
turn function.
-/

namespace Lucia

/-- A decoded JSON / Python value as handled by `response.json()` and the
dict-inspection code of `_async_handle_message`. `null` is Python `None`. -/
inductive Json where
  | null : Json
  | bool (b : Bool) : Json
  | num (n : Int) : Json
  | str (s : String) : Json
  | arr (elts : List Json) : Json
  | obj (fields : List (String × Json)) : Json

/-- Python truthiness (`bool(x)`) for the values we model:
`None`, `False`, `0`, `""`, `[]`, `{}` are falsy, everything else truthy. -/
def jsonTruthy : Json → Bool
  | .null => false
  | .bool b => b
  | .num n => n != 0
  | .str s => s != ""
  | .arr elts => !elts.isEmpty
  | .obj fields => !fields.isEmpty

/-- Python `x or y` on values: `y` when `x` is falsy, else `x`. -/
def jOr (x y : Json) : Json := if jsonTruthy x then x else y

/-- Python `x == lit` for a string literal `lit`: true exactly on the
equal string (equality between a string and a value of any other of our
modelled types is `False` in Python). -/
def jEqStr (j : Json) (lit : String) : Bool :=
  match j with
  | .str s => s = lit
  | _ => false

/-- First binding of key `k` in an object; `none` when `j` is not an
object or the key is absent. -/
def jGet (j : Json) (k : String) : Option Json :=
  match j with
  | .obj fields => lookupField fields k
  | _ => none
where
  lookupField : List (String × Json) → String → Option Json
    | [], _ => none
    | (k', v) :: rest, k => if k' = k then some v else lookupField rest k

/-- Python `d.get(k, default)` for a value already known to be a dict:
the default is returned only when the key is absent (a stored `None`
is returned as `Json.null`, not replaced by the default). -/
def jGetD (j : Json) (k : String) (d : Json) : Json :=
  (jGet j k).getD d

/-- Whether an object value has key `k` (`k in d` for a dict). -/
def jHasKey (j : Json) (k : String) : Bool :=
  (jGet j k).isSome

/-- Bool-valued prefix test on character lists. -/
def charsPrefixOf : List Char → List Char → Bool
  | [], _ => true
  | _ :: _, [] => false
  | c :: cs, d :: ds => c == d && charsPrefixOf cs ds

/-- Bool-valued substring (contiguous) test on character lists. -/
def charsContains (hay pat : List Char) : Bool :=
  charsPrefixOf pat hay ||
    (match hay with
     | [] => false
     | _ :: rest => charsContains rest pat)

/-- Python `k in x` for an arbitrary value: key test on dicts, element
test on lists (`==` against the string `k`, false for non-strings),
substring test on strings; `TypeError` (modelled as `Except.error`) on
values that are not containers. -/
def pyIn (k : String) (j : Json) : Except String Bool :=
  match j with
  | .obj _ => .ok (jHasKey j k)
  | .arr elts => .ok (elts.any (fun e => jEqStr e k))
  | .str s => .ok (charsContains s.data k.data)
  | _ => .error "argument is not iterable"

/-- Python `x.get(k, default)` when `x` may not be a dict:
`AttributeError` (modelled as `Except.error`) on non-dict values. -/
def dictGetD (j : Json) (k : String) (d : Json) : Except String Json :=
  match j with
  | .obj _ => .ok (jGetD j k d)
  | _ => .error "object has no attribute get"

/-- The apostrophe character, kept out of string literals. -/
def apos : Char := Char.ofNat 39

/-- The apostrophe as a one-character string. -/
def aposS : String := String.singleton apos

/-- Python `repr()` of a modelled value (used by `str()` on containers). -/
def pyRepr : Json → String
  | .null => "None"
  | .bool b => if b then "True" else "False"
  | .num n => toString n
  | .str s => aposS ++ s ++ aposS
  | .arr elts => "[" ++ pyReprList elts ++ "]"
  | .obj fields => "\x7b" ++ pyReprFields fields ++ "\x7d"
where
  pyReprList : List Json → String
    | [] => ""
    | [x] => pyRepr x
    | x :: rest => pyRepr x ++ ", " ++ pyReprList rest
  pyReprFields : List (String × Json) → String
    | [] => ""
    | [(k, v)] => aposS ++ k ++ aposS ++ ": " ++ pyRepr v
    | (k, v) :: rest => aposS ++ k ++ aposS ++ ": " ++ pyRepr v ++ ", " ++ pyReprFields rest

/-- Python `str()` of a modelled value, as interpolated by an f-string. -/
def pyStr (j : Json) : String :=
  match j with
  | .str s => s
  | _ => pyRepr j

/-! ## `conversation_tracker.py` -/

/-- `TrackedConversation`: a tracked A2A conversation mapping.
The Python dataclass annotates `context_id : str` / `task_id : Optional[str]`,
but annotations are unenforced and the bridge stores whatever values the
reply carried, so both are modelled as `Json` (`task_id = Json.null` is
Python `None`). `expires_at` is a monotonic-clock instant. -/
structure TrackedConversation where
  context_id : Json
  task_id : Json := Json.null
  expires_at : ℚ

/-- First value bound to key `k` in an association list (dict lookup).
Keys are the HA conversation ids, which are strings (`conversation_id: str`). -/
def lookupAssoc (l : List (String × TrackedConversation)) (k : String) :
    Option TrackedConversation :=
  match l with
  | [] => none
  | (k', v) :: rest => if k' = k then some v else lookupAssoc rest k

/-- Python dict assignment `d[k] = v`: replace the binding in place when
the key is present, append it otherwise (insertion order preserved). -/
def assocSet (l : List (String × TrackedConversation)) (k : String)
    (v : TrackedConversation) : List (String × TrackedConversation) :=
  match l with
  | [] => [(k, v)]
  | (k', v') :: rest => if k' = k then (k, v) :: rest else (k', v') :: assocSet rest k v

/-- `ConversationTracker`: maps HA `conversation_id` → A2A contextId/taskId
with TTL expiration. `_entries` is the backing dict, modelled as an
association list in insertion order. -/
structure ConversationTracker where
  ttl : ℚ
  entries : List (String × TrackedConversation)

namespace ConversationTracker

/-- `_prune_expired`: remove all entries whose `expires_at <= now`
(`time.monotonic()` is the explicit `now` argument). -/
def pruneExpired (t : ConversationTracker) (now : ℚ) : ConversationTracker :=
  { t with entries := t.entries.filter (fun kv => !(kv.2.expires_at ≤ now)) }

/-- `get`: prune expired entries, then look up; returns the found entry
(or `none`) together with the tracker state after the prune side effect. -/
def get (t : ConversationTracker) (now : ℚ) (conversation_id : String) :
    Option TrackedConversation × ConversationTracker :=
  let t' := t.pruneExpired now
  (lookupAssoc t'.entries conversation_id, t')

/-- `store`: unconditionally replace the entry for `conversation_id` with a
fresh `TrackedConversation` whose `expires_at = now + ttl`. No pruning. -/
def store (t : ConversationTracker) (now : ℚ) (conversation_id : String)
    (context_id : Json) (task_id : Json) : ConversationTracker :=
  { t with
    entries := assocSet t.entries conversation_id
      { context_id := context_id, task_id := task_id, expires_at := now + t.ttl } }

/-- `remove`: delete the entry if present; no error if absent. -/
def remove (t : ConversationTracker) (conversation_id : String) : ConversationTracker :=
  { t with entries := t.entries.filter (fun kv => kv.1 != conversation_id) }

/-- Well-formedness inherited from Python dicts: keys are distinct. -/
def wf (t : ConversationTracker) : Prop :=
  (t.entries.map Prod.fst).Nodup

instance (t : ConversationTracker) : Decidable t.wf := by
  unfold wf; infer_instance

end ConversationTracker

/-! ## `conversation.py` — reply decoding (lines 196–260) -/

/-- Contribution of one element of a `parts` list to the accumulated reply
text: `if isinstance(part, dict) and part.get("kind") == "text":
response_text += part.get("text", "")`. Concatenating a non-string value
raises `TypeError` (modelled as `Except.error`). -/
def partText (part : Json) : Except String String :=
  match part with
  | .obj _ =>
      if jEqStr (jGetD part "kind" .null) "text" then
        match jGetD part "text" (.str "") with
        | .str s => .ok s
        | _ => .error "can only concatenate str"
      else .ok ""
  | _ => .ok ""

/-- `for part in parts: ...` accumulation of reply text, in order. -/
def accumParts : List Json → Except String String
  | [] => .ok ""
  | part :: rest => do
      let t ← partText part
      let r ← accumParts rest
      .ok (t ++ r)

/-- Python `for part in x`: lists iterate their elements, strings their
characters (as one-character strings), dicts their keys; other values
raise `TypeError` (modelled as `Except.error`). -/
def iterElems (j : Json) : Except String (List Json) :=
  match j with
  | .arr elts => .ok elts
  | .str s => .ok (s.data.map (fun c => Json.str (String.singleton c)))
  | .obj fields => .ok (fields.map (fun kv => Json.str kv.1))
  | _ => .error "object is not iterable"

/-- The four decode outputs of lines 218–221, after the `result` branch:
`response_text`, `continue_conversation`, `response_context_id`,
`response_task_id`. -/
structure DecodeOut where
  response_text : String
  continue_conversation : Bool
  response_context_id : Json
  response_task_id : Json

/-- Decoding of a dict-valued `result["result"]` (`a2a_result`), lines
227–257: Task responses (a `status` key present) versus Message responses.
`context_id` / `task_id` are the previously-resolved request identifiers
used as fallbacks. -/
def decodeA2A (a2a : Json) (context_id task_id : Json) :
    Except String DecodeOut := do
  if jHasKey a2a "status" then
    let status := jGetD a2a "status" (.obj [])
    let state ← dictGetD status "state" (.str "completed")
    let response_task_id := jOr (jGetD a2a "id" .null) task_id
    let response_context_id := jOr (jGetD a2a "contextId" .null) context_id
    let status_message ← dictGetD status "message" (.obj [])
    let response_text ←
      match status_message with
      | .obj _ => do
          let parts ← iterElems (jGetD status_message "parts" (.arr []))
          accumParts parts
      | _ => .ok ""
    let continue_conversation :=
      jEqStr state "input-required" || jEqStr state "working"
    .ok { response_text := response_text,
          continue_conversation := continue_conversation,
          response_context_id := response_context_id,
          response_task_id := response_task_id }
  else
    let response_context_id := jOr (jGetD a2a "contextId" .null) context_id
    let response_text ←
      if jHasKey a2a "parts" then do
        let parts ← iterElems (jGetD a2a "parts" .null)
        accumParts parts
      else .ok ""
    .ok { response_text := response_text,
          continue_conversation := false,
          response_context_id := response_context_id,
          response_task_id := task_id }

/-- Outcome of processing a parsed 200-status reply body: either the
JSON-RPC error branch (lines 199–215) or a decoded success. -/
inductive ReplyOutcome where
  | protocolError (message : String)
  | success (d : DecodeOut)

/-- Processing of the parsed reply body `result = response.json()`,
lines 199–260: the `"error" in result` branch, then the
`"result" in result and isinstance(result["result"], dict)` branch,
else the line 218–221 defaults. Python exceptions raised by the duck-typed
inspection (non-dict indexing, `.get` on non-dicts, non-iterables) are
`Except.error` and are caught by the surrounding `except` clause. -/
def processReply (result : Json) (context_id task_id : Json) :
    Except String ReplyOutcome := do
  let hasError ← pyIn "error" result
  if hasError then
    match result with
    | .obj _ =>
        match jGetD result "error" .null with
        | .obj efields =>
            .ok (.protocolError
              (pyStr (jGetD (.obj efields) "message" (.str "Unknown error"))))
        | _ => .error "object has no attribute get"
    | _ => .error "indices must be integers"
  else
    let hasResult ← pyIn "result" result
    if hasResult then
      match result with
      | .obj _ =>
          match jGetD result "result" .null with
          | .obj afields => do
              let d ← decodeA2A (.obj afields) context_id task_id
              .ok (.success d)
          | _ =>
              .ok (.success { response_text := "", continue_conversation := false,
                              response_context_id := context_id,
                              response_task_id := task_id })
      | _ => .error "indices must be integers"
    else
      .ok (.success { response_text := "", continue_conversation := false,
                      response_context_id := context_id,
                      response_task_id := task_id })

/-! ## `conversation.py` — the turn function `_async_handle_message` -/

/-- The relevant fields of `hass.data[DOMAIN][entry_id]`:
`client_data.get("agent_url")` (any value; falsy means unconfigured) and
the truthiness of `client_data.get("httpx_client")`. -/
structure ClientData where
  agent_url : Json
  httpx_client_present : Bool

/-- Behaviour of `self._render_template(prompt_template, user_input)` for
this turn (the renderer and the home-context registries it consults are
external collaborators): a rendered string, a raised `TemplateError`
(caught at lines 112–120), or any other raised exception (caught nowhere
on this path, since the `try` at line 168 has not begun). -/
inductive RenderOutcome where
  | ok (rendered : String)
  | templateError
  | otherException
deriving DecidableEq

/-- The fields of `ConversationInput` the turn reads (besides the fields
that flow only into logging and the chat log). -/
structure UserInput where
  conversation_id : Option String
  text : String

/-- Behaviour of `httpx_client.post(agent_url, json=..., timeout=30.0)`
for this turn: a raised transport exception (with `str(err)`), or a
response with a status code and a body whose `response.json()` either
parses to a value or raises (with `str(err)`). -/
inductive TransportOutcome where
  | fault (desc : String)
  | response (status_code : Nat) (body : Except String Json)

/-- The platform-facing `ConversationResult`: the speech set on the
`IntentResponse`, the `conversation_id`, and `continue_conversation`. -/
structure ConversationResult where
  speech : String
  conversation_id : Option String
  continue_conversation : Bool

/-- How the turn ends at the host platform: a returned
`ConversationResult`, or an exception propagated out of
`_async_handle_message`. -/
inductive TurnResult where
  | propagated
  | returned (result : ConversationResult)

/-- Everything observable about one turn: how it ended, the tracker state
it leaves behind, and the JSON-RPC request it posted (if it reached the
transport). -/
structure TurnOutcome where
  result : TurnResult
  tracker : ConversationTracker
  wireRequest : Option Json

/-- Speech for the missing-client-data configuration fault (line 86). -/
def notConfiguredMessage : String :=
  "I" ++ aposS ++ "m sorry, but I" ++ aposS ++
    "m not properly configured. Please check the integration settings."

/-- Speech for the missing agent URL / HTTP client fault (line 100). -/
def incompleteConfigMessage : String := "Agent configuration is incomplete."

/-- The plain fallback system prompt used when template rendering raises
`TemplateError` (lines 117–120). -/
def fallbackSystemPrompt : String :=
  "You are a Home Assistant smart home assistant. " ++
    "Help the user control their devices and automations."

/-- The fixed no-content fallback reply text (line 260). -/
def noResponseFallback : String :=
  "I received your message but didn" ++ aposS ++ "t generate a response."

/-- Speech of the outermost exception handler (line 292); `desc` is
`str(err)`. -/
def genericErrorMessage (desc : String) : String :=
  "I encountered an error while processing your request: " ++ desc

/-- Speech for a non-200 HTTP status (line 180). -/
def httpStatusMessage (status_code : Nat) : String :=
  "Agent returned HTTP " ++ toString status_code

/-- Speech for a JSON-RPC error reply (line 202). -/
def agentErrorMessage (message : String) : String :=
  "Agent error: " ++ message

/-- Lines 123–125: `tracked = None; if user_input.conversation_id:
tracked = self._tracker.get(user_input.conversation_id)` (the value). -/
def resolveTracked (tr : ConversationTracker) (now : ℚ)
    (cid : Option String) : Option TrackedConversation :=
  match cid with
  | some c => if c != "" then (tr.get now c).1 else none
  | none => none

/-- The tracker state after the lines 123–125 lookup (whose lazy pruning
is a side effect). -/
def trackerAfterLookup (tr : ConversationTracker) (now : ℚ)
    (cid : Option String) : ConversationTracker :=
  match cid with
  | some c => if c != "" then (tr.get now c).2 else tr
  | none => tr

/-- Lines 127–132: the request `context_id` — the tracked one, else a
freshly generated uuid (the explicit `freshUuid` input). -/
def resolvedContextId (tracked : Option TrackedConversation)
    (freshUuid : String) : Json :=
  match tracked with
  | some t => t.context_id
  | none => .str freshUuid

/-- Lines 127–132: the request `task_id` — the tracked one, else `None`. -/
def resolvedTaskId (tracked : Option TrackedConversation) : Json :=
  match tracked with
  | some t => t.task_id
  | none => .null

/-- Line 134: `ha_conversation_id = user_input.conversation_id or
context_id`. When the incoming handle is falsy the lookup was skipped, so
`context_id` is the fresh uuid string. -/
def haConversationId (cid : Option String) (freshUuid : String) : String :=
  match cid with
  | some c => if c != "" then c else freshUuid
  | none => freshUuid

/-- Line 137: the combined prompt/user text blob. -/
def buildMessageText (system_prompt user_text : String) : String :=
  system_prompt ++ "\n\nUser: " ++ user_text

/-- Lines 140–156: the A2A message dict. -/
def buildA2AMessage (message_text : String) (context_id task_id : Json) : Json :=
  .obj [("kind", .str "message"),
        ("role", .str "user"),
        ("parts", .arr [.obj [("kind", .str "text"),
                              ("text", .str message_text),
                              ("metadata", .null)]]),
        ("messageId", .null),
        ("contextId", context_id),
        ("taskId", task_id),
        ("metadata", .null),
        ("referenceTaskIds", .arr []),
        ("extensions", .arr [])]

/-- Lines 159–166: the JSON-RPC 2.0 request envelope. -/
def buildJsonRpcRequest (message : Json) : Json :=
  .obj [("jsonrpc", .str "2.0"),
        ("method", .str "message/send"),
        ("params", .obj [("message", message)]),
        ("id", .num 1)]

/-- The system prompt the turn proceeds with: the rendered string, or the
fixed fallback when rendering raised `TemplateError` (lines 112–120). -/
def renderedPrompt : RenderOutcome → String
  | .ok rendered => rendered
  | _ => fallbackSystemPrompt

/-- Lines 122–287 of `_async_handle_message`: the turn after configuration
checks and prompt rendering succeeded — session resolution, request
construction, transport, reply decoding, tracker update. The `try` at
line 168 spans the transport call, body parsing, reply processing and
tracker store; `Except.error`s there land in the generic handler
(lines 289–307), which returns `conversation_id = None`. The chat-log
append and `IntentResponse` construction are host-side calls with no
modelled state and are assumed non-raising; the 30-second transport
timeout surfaces as `TransportOutcome.fault`. -/
def coreTurn (system_prompt : String) (user_input : UserInput)
    (tr : ConversationTracker) (now : ℚ) (freshUuid : String)
    (transport : TransportOutcome) : TurnOutcome :=
  let tracked := resolveTracked tr now user_input.conversation_id
        let tr1 := trackerAfterLookup tr now user_input.conversation_id
        let context_id := resolvedContextId tracked freshUuid
        let task_id := resolvedTaskId tracked
        let ha_conversation_id := haConversationId user_input.conversation_id freshUuid
        let req := buildJsonRpcRequest
          (buildA2AMessage (buildMessageText system_prompt user_input.text)
            context_id task_id)
        match transport with
        | .fault desc =>
            { result := .returned { speech := genericErrorMessage desc,
                                    conversation_id := none,
                                    continue_conversation := false },
              tracker := tr1, wireRequest := some req }
        | .response status_code body =>
          if status_code ≠ 200 then
            { result := .returned { speech := httpStatusMessage status_code,
                                    conversation_id := some ha_conversation_id,
                                    continue_conversation := false },
              tracker := tr1, wireRequest := some req }
          else
            match body with
            | .error desc =>
                { result := .returned { speech := genericErrorMessage desc,
                                        conversation_id := none,
                                        continue_conversation := false },
                  tracker := tr1, wireRequest := some req }
            | .ok parsed =>
              match processReply parsed context_id task_id with
              | .error desc =>
                  { result := .returned { speech := genericErrorMessage desc,
                                          conversation_id := none,
                                          continue_conversation := false },
                    tracker := tr1, wireRequest := some req }
              | .ok (.protocolError message) =>
                  { result := .returned { speech := agentErrorMessage message,
                                          conversation_id := some ha_conversation_id,
                                          continue_conversation := false },
                    tracker := tr1, wireRequest := some req }
              | .ok (.success d) =>
                  let response_text :=
                    if d.response_text = "" then noResponseFallback
                    else d.response_text
                  let tr2 := tr1.store now ha_conversation_id
                    d.response_context_id
                    (if d.continue_conversation then d.response_task_id else .null)
                  { result := .returned { speech := response_text,
                                          conversation_id := some ha_conversation_id,
                                          continue_conversation := d.continue_conversation },
                    tracker := tr2, wireRequest := some req }

/-- `LuciaConversationEntity._async_handle_message`, lines 75–307, as one
turn over explicit collaborator behaviours: the configuration checks
(lines 81–105), the prompt-rendering `try` that catches only
`TemplateError` (lines 112–120) — so any other renderer exception
propagates out of the handler — and then `coreTurn`. -/
def handleMessage (client_data : Option ClientData) (render : RenderOutcome)
    (user_input : UserInput) (tr : ConversationTracker) (now : ℚ)
    (freshUuid : String) (transport : TransportOutcome) : TurnOutcome :=
  match client_data with
  | none =>
      { result := .returned { speech := notConfiguredMessage,
                              conversation_id := none,
                              continue_conversation := false },
        tracker := tr, wireRequest := none }
  | some cd =>
    if !jsonTruthy cd.agent_url || !cd.httpx_client_present then
      { result := .returned { speech := incompleteConfigMessage,
                              conversation_id := none,
                              continue_conversation := false },
        tracker := tr, wireRequest := none }
    else
      match render with
      | .otherException =>
          { result := .propagated, tracker := tr, wireRequest := none }
      | _ =>
          coreTurn (renderedPrompt render) user_input tr now freshUuid transport

/-! ## Helper lemmas -/

theorem jEqStr_iff (j : Json) (s : String) : jEqStr j s = true ↔ j = Json.str s := by
  cases j <;> simp [jEqStr]

theorem lookupAssoc_assocSet_self (l : List (String × TrackedConversation))
    (k : String) (v : TrackedConversation) :
    lookupAssoc (assocSet l k v) k = some v := by
  induction l with
  | nil => simp [assocSet, lookupAssoc]
  | cons kv rest ih =>
    obtain ⟨a, b⟩ := kv
    by_cases h : a = k
    · subst h; simp [assocSet, lookupAssoc]
    · simp [assocSet, lookupAssoc, h, ih]

theorem lookupAssoc_assocSet_ne (l : List (String × TrackedConversation))
    (k k' : String) (v : TrackedConversation) (h : k' ≠ k) :
    lookupAssoc (assocSet l k v) k' = lookupAssoc l k' := by
  have hk : ¬(k = k') := fun hh => h hh.symm
  induction l with
  | nil => simp [assocSet, lookupAssoc, hk]
  | cons kv rest ih =>
    obtain ⟨a, b⟩ := kv
    by_cases hak : a = k
    · subst hak
      simp [assocSet, lookupAssoc, hk]
    · simp [assocSet, lookupAssoc, hak, ih]

theorem lookupAssoc_eq_none (l : List (String × TrackedConversation)) (k : String)
    (h : k ∉ l.map Prod.fst) : lookupAssoc l k = none := by
  induction l with
  | nil => rfl
  | cons kv rest ih =>
    obtain ⟨a, b⟩ := kv
    simp only [List.map_cons, List.mem_cons] at h
    push_neg at h
    have hak : ¬(a = k) := fun hh => h.1 hh.symm
    simp [lookupAssoc, hak, ih h.2]

theorem lookupAssoc_filter_eq_none (l : List (String × TrackedConversation))
    (k : String) (p : String × TrackedConversation → Bool)
    (h : k ∉ l.map Prod.fst) : lookupAssoc (l.filter p) k = none := by
  induction l with
  | nil => rfl
  | cons kv rest ih =>
    obtain ⟨a, b⟩ := kv
    simp only [List.map_cons, List.mem_cons] at h
    push_neg at h
    have hak : ¬(a = k) := fun hh => h.1 hh.symm
    rw [List.filter_cons]
    by_cases hp : p (a, b)
    · simp [hp, lookupAssoc, hak, ih h.2]
    · simp [hp, ih h.2]

theorem lookupAssoc_filter_nodup (l : List (String × TrackedConversation))
    (k : String) (p : String × TrackedConversation → Bool)
    (h : (l.map Prod.fst).Nodup) :
    lookupAssoc (l.filter p) k = (lookupAssoc l k).filter (fun v => p (k, v)) := by
  induction l with
  | nil => rfl
  | cons kv rest ih =>
    obtain ⟨a, b⟩ := kv
    simp only [List.map_cons, List.nodup_cons] at h
    by_cases hak : a = k
    · subst hak
      rw [List.filter_cons]
      by_cases hp : p (a, b)
      · simp [hp, lookupAssoc, Option.filter]
      · simp [hp, lookupAssoc, Option.filter,
          lookupAssoc_filter_eq_none rest a p h.1]
    · rw [List.filter_cons]
      by_cases hp : p (a, b)
      · simp [hp, lookupAssoc, hak, ih h.2]
      · simp [hp, lookupAssoc, hak, ih h.2]

theorem mem_map_fst_assocSet (l : List (String × TrackedConversation))
    (k a : String) (v : TrackedConversation) :
    a ∈ (assocSet l k v).map Prod.fst ↔ a ∈ l.map Prod.fst ∨ a = k := by
  induction l with
  | nil => simp [assocSet]
  | cons kv rest ih =>
    obtain ⟨b, c⟩ := kv
    by_cases hbk : b = k
    · subst hbk
      have he : assocSet ((b, c) :: rest) b v = (b, v) :: rest := by simp [assocSet]
      rw [he, List.map_cons, List.mem_cons, List.map_cons, List.mem_cons]
      tauto
    · simp only [assocSet, if_neg hbk, List.map_cons, List.mem_cons, ih]
      tauto

theorem nodup_assocSet (l : List (String × TrackedConversation))
    (k : String) (v : TrackedConversation) (h : (l.map Prod.fst).Nodup) :
    ((assocSet l k v).map Prod.fst).Nodup := by
  induction l with
  | nil => simp [assocSet]
  | cons kv rest ih =>
    obtain ⟨b, c⟩ := kv
    simp only [List.map_cons, List.nodup_cons] at h
    by_cases hbk : b = k
    · subst hbk
      have he : assocSet ((b, c) :: rest) b v = (b, v) :: rest := by simp [assocSet]
      rw [he, List.map_cons, List.nodup_cons]
      exact ⟨h.1, h.2⟩
    · simp only [assocSet, if_neg hbk, List.map_cons, List.nodup_cons]
      constructor
      · rw [mem_map_fst_assocSet]
        push_neg
        exact ⟨h.1, hbk⟩
      · exact ih h.2

theorem trackerAfterLookup_ttl (tr : ConversationTracker) (now : ℚ)
    (cid : Option String) : (trackerAfterLookup tr now cid).ttl = tr.ttl := by
  cases cid with
  | none => rfl
  | some c =>
    by_cases h : c = ""
    · simp [trackerAfterLookup, h]
    · simp [trackerAfterLookup, h, ConversationTracker.get, ConversationTracker.pruneExpired]

theorem handleMessage_valid (cd : ClientData) (render : RenderOutcome)
    (ui : UserInput) (tr : ConversationTracker) (now : ℚ) (uuid : String)
    (transport : TransportOutcome)
    (hurl : jsonTruthy cd.agent_url = true) (hcl : cd.httpx_client_present = true)
    (hrender : render ≠ .otherException) :
    handleMessage (some cd) render ui tr now uuid transport =
      coreTurn (renderedPrompt render) ui tr now uuid transport := by
  cases render with
  | ok s => simp [handleMessage, hurl, hcl]
  | templateError => simp [handleMessage, hurl, hcl]
  | otherException => exact absurd rfl hrender

theorem wf_store (tr : ConversationTracker) (now : ℚ) (k : String)
    (c t : Json) (h : tr.wf) : (tr.store now k c t).wf :=
  nodup_assocSet tr.entries k _ h

theorem get_store_lookup (tr : ConversationTracker) (h : String) (c t : Json)
    (now₁ now₂ : ℚ) (hwf : tr.wf) :
    ((tr.store now₁ h c t).get now₂ h).1 =
      if now₁ + tr.ttl ≤ now₂ then none
      else some ⟨c, t, now₁ + tr.ttl⟩ := by
  unfold ConversationTracker.get ConversationTracker.pruneExpired ConversationTracker.store
  simp only
  rw [lookupAssoc_filter_nodup _ h _ (nodup_assocSet tr.entries h _ hwf),
    lookupAssoc_assocSet_self]
  by_cases hle : now₁ + tr.ttl ≤ now₂ <;> simp [Option.filter, hle]

theorem except_bind_ok {α β : Type} (a : α) (f : α → Except String β) :
    (Except.ok a >>= f) = f a := rfl

theorem except_bind_error {α β : Type} (e : String) (f : α → Except String β) :
    ((Except.error e : Except String α) >>= f) = Except.error e := rfl

theorem except_bind_ok_inv {α β : Type} {x : Except String α}
    {f : α → Except String β} {b : β} (h : (x >>= f) = .ok b) :
    ∃ a, x = .ok a ∧ f a = .ok b := by
  cases x with
  | error e => rw [except_bind_error] at h; exact absurd h (by simp)
  | ok a => exact ⟨a, rfl, by rw [except_bind_ok] at h; exact h⟩

theorem decodeA2A_status_inv (fields : List (String × Json)) (ctx tid : Json)
    (d : DecodeOut) (hkey : jHasKey (Json.obj fields) "status" = true)
    (hdec : decodeA2A (Json.obj fields) ctx tid = .ok d) :
    ∃ sv, dictGetD (jGetD (Json.obj fields) "status" (Json.obj [])) "state"
        (Json.str "completed") = .ok sv ∧
      d.continue_conversation =
        (jEqStr sv "input-required" || jEqStr sv "working") ∧
      d.response_task_id = jOr (jGetD (Json.obj fields) "id" Json.null) tid ∧
      d.response_context_id =
        jOr (jGetD (Json.obj fields) "contextId" Json.null) ctx := by
  unfold decodeA2A at hdec
  rw [hkey] at hdec
  obtain ⟨sv, hst, hdec⟩ := except_bind_ok_inv hdec
  obtain ⟨sm, hsm, hdec⟩ := except_bind_ok_inv hdec
  cases sm with
  | obj smf =>
    obtain ⟨parts, hpp, hdec⟩ := except_bind_ok_inv hdec
    obtain ⟨rt, hrt, hdec⟩ := except_bind_ok_inv hdec
    injection hdec with hdec
    subst hdec
    exact ⟨sv, hst, rfl, rfl, rfl⟩
  | null =>
    obtain ⟨rt, hrt, hdec⟩ := except_bind_ok_inv hdec
    injection hdec with hdec
    subst hdec
    exact ⟨sv, hst, rfl, rfl, rfl⟩
  | bool b =>
    obtain ⟨rt, hrt, hdec⟩ := except_bind_ok_inv hdec
    injection hdec with hdec
    subst hdec
    exact ⟨sv, hst, rfl, rfl, rfl⟩
  | num n =>
    obtain ⟨rt, hrt, hdec⟩ := except_bind_ok_inv hdec
    injection hdec with hdec
    subst hdec
    exact ⟨sv, hst, rfl, rfl, rfl⟩
  | str s =>
    obtain ⟨rt, hrt, hdec⟩ := except_bind_ok_inv hdec
    injection hdec with hdec
    subst hdec
    exact ⟨sv, hst, rfl, rfl, rfl⟩
  | arr es =>
    obtain ⟨rt, hrt, hdec⟩ := except_bind_ok_inv hdec
    injection hdec with hdec
    subst hdec
    exact ⟨sv, hst, rfl, rfl, rfl⟩

theorem decodeA2A_message_inv (fields : List (String × Json)) (ctx tid : Json)
    (d : DecodeOut) (hkey : jHasKey (Json.obj fields) "status" = false)
    (hdec : decodeA2A (Json.obj fields) ctx tid = .ok d) :
    d.continue_conversation = false ∧
    d.response_task_id = tid ∧
    d.response_context_id =
      jOr (jGetD (Json.obj fields) "contextId" Json.null) ctx := by
  unfold decodeA2A at hdec
  rw [hkey] at hdec
  by_cases hp : jHasKey (Json.obj fields) "parts" = true
  · rw [hp] at hdec
    obtain ⟨parts, hpp, hdec⟩ := except_bind_ok_inv hdec
    obtain ⟨rt, hrt, hdec⟩ := except_bind_ok_inv hdec
    injection hdec with hdec
    subst hdec
    exact ⟨rfl, rfl, rfl⟩
  · rw [Bool.not_eq_true] at hp
    rw [hp] at hdec
    obtain ⟨rt, hrt, hdec⟩ := except_bind_ok_inv hdec
    injection hdec with hdec
    subst hdec
    exact ⟨rfl, rfl, rfl⟩

theorem decodeA2A_status_text (fields sfields mfields : List (String × Json))
    (ps : List Json) (ctx tid : Json) (d : DecodeOut)
    (hst : jGet (Json.obj fields) "status" = some (Json.obj sfields))
    (hmsg : jGet (Json.obj sfields) "message" = some (Json.obj mfields))
    (hparts : jGetD (Json.obj mfields) "parts" (Json.arr []) = Json.arr ps)
    (hdec : decodeA2A (Json.obj fields) ctx tid = .ok d) :
    accumParts ps = .ok d.response_text := by
  have hkey : jHasKey (Json.obj fields) "status" = true := by
    simp [jHasKey, hst]
  have hstD : jGetD (Json.obj fields) "status" (Json.obj []) = Json.obj sfields := by
    simp [jGetD, hst]
  unfold decodeA2A at hdec
  rw [hkey, hstD] at hdec
  obtain ⟨sv, hsv, hdec⟩ := except_bind_ok_inv hdec
  obtain ⟨sm, hsm, hdec⟩ := except_bind_ok_inv hdec
  have hsm' : sm = Json.obj mfields := by
    simp only [dictGetD, Except.ok.injEq] at hsm
    rw [← hsm]
    simp [jGetD, hmsg]
  subst hsm'
  obtain ⟨parts, hpp, hdec⟩ := except_bind_ok_inv hdec
  obtain ⟨y, hy, hdec⟩ := except_bind_ok_inv hdec
  injection hdec with hdec
  subst hdec
  rw [hparts] at hpp
  simp only [iterElems, Except.ok.injEq] at hpp
  rw [← hpp] at hy
  exact hy

theorem decodeA2A_message_text (fields : List (String × Json)) (ps : List Json)
    (ctx tid : Json) (d : DecodeOut)
    (hkey : jHasKey (Json.obj fields) "status" = false)
    (hpkey : jHasKey (Json.obj fields) "parts" = true)
    (hparts : jGetD (Json.obj fields) "parts" Json.null = Json.arr ps)
    (hdec : decodeA2A (Json.obj fields) ctx tid = .ok d) :
    accumParts ps = .ok d.response_text := by
  unfold decodeA2A at hdec
  rw [hkey, hpkey] at hdec
  obtain ⟨parts, hpp, hdec⟩ := except_bind_ok_inv hdec
  obtain ⟨y, hy, hdec⟩ := except_bind_ok_inv hdec
  injection hdec with hdec
  subst hdec
  rw [hparts] at hpp
  simp only [iterElems, Except.ok.injEq] at hpp
  rw [← hpp] at hy
  exact hy

/-- The claim's wording of per-part text extraction: the `text` field of a
part whose kind tag equals `"text"`; parts of other kinds contribute
nothing. -/
def specTextOfPart (p : Json) : String :=
  match p with
  | .obj _ =>
      if jEqStr (jGetD p "kind" Json.null) "text" then
        match jGetD p "text" (Json.str "") with
        | .str s => s
        | _ => ""
      else ""
  | _ => ""

/-- The claim's wording of reply-text accumulation: the in-order
concatenation of the `text` field of every part whose kind tag equals
`"text"` (all text parts included, parts of other kinds ignored). -/
def specConcatTextParts : List Json → String
  | [] => ""
  | p :: rest => specTextOfPart p ++ specConcatTextParts rest

theorem partText_eq_spec (p : Json) (t : String) (h : partText p = .ok t) :
    t = specTextOfPart p := by
  unfold partText at h
  unfold specTextOfPart
  cases p with
  | obj pf =>
    by_cases hk : jEqStr (jGetD (Json.obj pf) "kind" Json.null) "text" = true
    · rw [if_pos hk] at h
      rw [if_pos hk]
      cases hv : jGetD (Json.obj pf) "text" (Json.str "") with
      | str s =>
        rw [hv] at h
        injection h with h
        exact h.symm
      | null => rw [hv] at h; exact absurd h (by simp)
      | bool b => rw [hv] at h; exact absurd h (by simp)
      | num n => rw [hv] at h; exact absurd h (by simp)
      | arr es => rw [hv] at h; exact absurd h (by simp)
      | obj fs => rw [hv] at h; exact absurd h (by simp)
    · rw [if_neg hk] at h
      rw [if_neg hk]
      injection h with h
      exact h.symm
  | null => injection h with h; exact h.symm
  | bool b => injection h with h; exact h.symm
  | num n => injection h with h; exact h.symm
  | str s => injection h with h; exact h.symm
  | arr es => injection h with h; exact h.symm

theorem accumParts_eq_spec (ps : List Json) (s : String)
    (h : accumParts ps = .ok s) : s = specConcatTextParts ps := by
  induction ps generalizing s with
  | nil =>
    injection h with h
    exact h.symm
  | cons p rest ih =>
    unfold accumParts at h
    obtain ⟨t, hpt, h⟩ := except_bind_ok_inv h
    obtain ⟨r, hr, h⟩ := except_bind_ok_inv h
    injection h with h
    subst h
    unfold specConcatTextParts
    rw [partText_eq_spec p t hpt, ih r hr]

/-! ## Claim theorems -/

/-- Claim C2: after `store(h, c, t)`, a `get(h)` performed before
`ttlSeconds` have elapsed returns exactly the stored pair, and a `get(h)`
performed once `ttlSeconds` have elapsed returns absent; `store` is a full
replacement, so `store(h, c1, t1)` followed by `store(h, c, None)` makes
`get(h)` return context id `c` with no task id. -/
theorem claim_C2 (tr : ConversationTracker) (h : String) (c t : Json)
    (now₀ now₁ now₂ : ℚ) (hwf : tr.wf) :
    (now₂ < now₁ + tr.ttl →
       ((tr.store now₁ h c t).get now₂ h).1 =
         some ⟨c, t, now₁ + tr.ttl⟩) ∧
    (now₁ + tr.ttl ≤ now₂ →
       ((tr.store now₁ h c t).get now₂ h).1 = none) ∧
    (∀ c₁ t₁, now₂ < now₁ + tr.ttl →
       (((tr.store now₀ h c₁ t₁).store now₁ h c Json.null).get now₂ h).1 =
         some ⟨c, Json.null, now₁ + tr.ttl⟩) := by
  refine ⟨?_, ?_, ?_⟩
  · intro hlt
    rw [get_store_lookup tr h c t now₁ now₂ hwf, if_neg (not_le.mpr hlt)]
  · intro hle
    rw [get_store_lookup tr h c t now₁ now₂ hwf, if_pos hle]
  · intro c₁ t₁ hlt
    have hwf' : (tr.store now₀ h c₁ t₁).wf := wf_store tr now₀ h c₁ t₁ hwf
    have httl : (tr.store now₀ h c₁ t₁).ttl = tr.ttl := rfl
    rw [get_store_lookup (tr.store now₀ h c₁ t₁) h c Json.null now₁ now₂ hwf', httl,
      if_neg (not_le.mpr hlt)]

theorem claim_C2_witness :
    (ConversationTracker.mk 300 []).wf ∧
    ((2:ℚ) < 1 + 300) ∧
    (((ConversationTracker.mk 300 []).store 1 "c1" (.str "ctx-a") (.str "t1")).get
        2 "c1").1 = some ⟨.str "ctx-a", .str "t1", 1 + 300⟩ ∧
    (((ConversationTracker.mk 300 []).store 1 "c1" (.str "ctx-a") (.str "t1")).get
        301 "c1").1 = none ∧
    ((((ConversationTracker.mk 300 []).store 0 "c1" (.str "ctx-a") (.str "t1")).store
        1 "c1" (.str "ctx-b") Json.null).get 2 "c1").1 =
      some ⟨.str "ctx-b", Json.null, 1 + 300⟩ := by
  have hwf : (ConversationTracker.mk 300 []).wf := by decide
  refine ⟨hwf, by norm_num, ?_, ?_, ?_⟩
  · exact (claim_C2 _ "c1" (.str "ctx-a") (.str "t1") 0 1 2 hwf).1 (by norm_num)
  · exact (claim_C2 _ "c1" (.str "ctx-a") (.str "t1") 0 1 301 hwf).2.1 (by norm_num)
  · exact (claim_C2 _ "c1" (.str "ctx-b") Json.null 0 1 2 hwf).2.2
      (.str "ctx-a") (.str "t1") (by norm_num)

/-- Claim C4 counterexample: `store` performs no pruning — after storing a
fresh entry under handle "b" at time 10, the expired entry for handle "a"
(whose `expires_at = 1` has passed, `1 ≤ 10`) is still present in the
tracker's internal storage, refuting "after every call to store ... no
entry whose expiresAt has passed remains". -/
theorem claim_C4_counterexample :
    ((ConversationTracker.mk 300 [("a", ⟨Json.str "c", Json.null, 1⟩)]).store 10 "b"
        (Json.str "cb") Json.null).entries =
      [("a", ⟨Json.str "c", Json.null, 1⟩),
       ("b", ⟨Json.str "cb", Json.null, 10 + 300⟩)] ∧
    (1:ℚ) ≤ 10 :=
  ⟨rfl, by norm_num⟩

/-- Claim C4 amended: expired entries are deleted lazily on `get` only —
after every `get`, no entry whose `expiresAt` has passed remains in the
internal storage; `store` does not prune, leaving the binding of every
other handle (expired or not) unchanged. -/
theorem claim_C4_amended :
    (∀ (tr : ConversationTracker) (now : ℚ) (k : String)
        (e : String × TrackedConversation),
        e ∈ ((tr.get now k).2).entries → now < e.2.expires_at) ∧
    (∀ (tr : ConversationTracker) (now : ℚ) (k : String) (c t : Json)
        (k' : String), k' ≠ k →
        lookupAssoc ((tr.store now k c t).entries) k' =
          lookupAssoc tr.entries k') := by
  constructor
  · intro tr now k e he
    simp only [ConversationTracker.get, ConversationTracker.pruneExpired,
      List.mem_filter, Bool.not_eq_eq_eq_not, Bool.not_true,
      decide_eq_false_iff_not] at he
    exact lt_of_not_le he.2
  · intro tr now k c t k' hk
    exact lookupAssoc_assocSet_ne tr.entries k k' _ hk

/-- Fields of a sample Task-shaped `result` object with the given state. -/
def sampleTaskFields (state : String) : List (String × Json) :=
  [("id", .str "T1"), ("contextId", .str "C1"),
   ("status", .obj [("state", .str state),
     ("message", .obj [("parts", .arr
       [.obj [("kind", .str "text"), ("text", .str "Done.")]])])])]

/-- A sample parts list mixing text and non-text kinds. -/
def sampleParts : List Json :=
  [.obj [("kind", .str "text"), ("text", .str "Hello ")],
   .obj [("kind", .str "other")],
   .obj [("kind", .str "text"), ("text", .str "world")]]

/-- Fields of a sample Message-shaped `result` object. -/
def sampleMessageFields : List (String × Json) :=
  [("contextId", .str "C1"), ("parts", .arr sampleParts)]

/-- A sample well-configured client-data record. -/
def sampleClientData : ClientData := ⟨Json.str "http://agent", true⟩

theorem claim_C4_amended_witness :
    ((("a", (⟨Json.str "c", Json.null, 5⟩ : TrackedConversation)) ∈
        (((ConversationTracker.mk 300 [("a", ⟨Json.str "c", Json.null, 5⟩)]).get
          1 "a").2).entries) ∧
      (1:ℚ) < 5) ∧
    ((("a" : String) ≠ "x") ∧
      lookupAssoc (((ConversationTracker.mk 300
            [("a", ⟨Json.str "c", Json.null, 1⟩)]).store 10 "x"
          (Json.str "cb") Json.null)).entries "a" =
        lookupAssoc [("a", (⟨Json.str "c", Json.null, 1⟩ : TrackedConversation))]
          "a") := by
  have hm : ("a", (⟨Json.str "c", Json.null, 5⟩ : TrackedConversation)) ∈
      (((ConversationTracker.mk 300 [("a", ⟨Json.str "c", Json.null, 5⟩)]).get
        1 "a").2).entries := by
    show _ ∈ [("a", (⟨Json.str "c", Json.null, 5⟩ : TrackedConversation))]
    exact List.mem_singleton.mpr rfl
  refine ⟨⟨hm, claim_C4_amended.1 _ 1 "a" _ hm⟩,
    ⟨by decide, claim_C4_amended.2 _ 10 "x" (Json.str "cb") Json.null "a" (by decide)⟩⟩

/-- Claim C3: `continue_conversation` is true exactly when the reply is a
Task reply (dict result with a `status` field) whose `status.state`
(defaulting to `"completed"` when absent) is `"working"` or
`"input-required"`; it is false for every Message reply; and an error
reply turn returns `continue_conversation = false`. -/
theorem claim_C3 :
    (∀ (fields : List (String × Json)) (ctx tid : Json) (d : DecodeOut),
        jHasKey (Json.obj fields) "status" = true →
        decodeA2A (Json.obj fields) ctx tid = .ok d →
        ∃ sv, dictGetD (jGetD (Json.obj fields) "status" (Json.obj []))
            "state" (Json.str "completed") = .ok sv ∧
          (d.continue_conversation = true ↔
            (sv = Json.str "working" ∨ sv = Json.str "input-required"))) ∧
    (∀ (fields : List (String × Json)) (ctx tid : Json) (d : DecodeOut),
        jHasKey (Json.obj fields) "status" = false →
        decodeA2A (Json.obj fields) ctx tid = .ok d →
        d.continue_conversation = false) ∧
    (∀ (cd : ClientData) (render : RenderOutcome) (ui : UserInput)
        (tr : ConversationTracker) (now : ℚ) (uuid : String) (parsed : Json)
        (message : String),
        jsonTruthy cd.agent_url = true → cd.httpx_client_present = true →
        render ≠ .otherException →
        processReply parsed
            (resolvedContextId (resolveTracked tr now ui.conversation_id) uuid)
            (resolvedTaskId (resolveTracked tr now ui.conversation_id)) =
          .ok (.protocolError message) →
        (handleMessage (some cd) render ui tr now uuid
            (.response 200 (.ok parsed))).result =
          .returned ⟨agentErrorMessage message,
            some (haConversationId ui.conversation_id uuid), false⟩) := by
  refine ⟨?_, ?_, ?_⟩
  · intro fields ctx tid d hkey hdec
    obtain ⟨sv, hst, hc, _, _⟩ := decodeA2A_status_inv fields ctx tid d hkey hdec
    refine ⟨sv, hst, ?_⟩
    rw [hc]
    simp only [Bool.or_eq_true, jEqStr_iff]
    tauto
  · intro fields ctx tid d hkey hdec
    exact (decodeA2A_message_inv fields ctx tid d hkey hdec).1
  · intro cd render ui tr now uuid parsed message hurl hcl hrender hrep
    rw [handleMessage_valid cd render ui tr now uuid _ hurl hcl hrender]
    simp [coreTurn, hrep]

theorem claim_C3_witness :
    (jHasKey (Json.obj (sampleTaskFields "working")) "status" = true ∧
      decodeA2A (Json.obj (sampleTaskFields "working")) (.str "rc") Json.null =
        .ok ⟨"Done.", true, .str "C1", .str "T1"⟩ ∧
      ∃ sv, dictGetD (jGetD (Json.obj (sampleTaskFields "working")) "status"
          (Json.obj [])) "state" (Json.str "completed") = .ok sv ∧
        ((DecodeOut.mk "Done." true (.str "C1")
            (.str "T1")).continue_conversation = true ↔
          (sv = Json.str "working" ∨ sv = Json.str "input-required"))) ∧
    (jHasKey (Json.obj sampleMessageFields) "status" = false ∧
      decodeA2A (Json.obj sampleMessageFields) (.str "rc") Json.null =
        .ok ⟨"Hello world", false, .str "C1", Json.null⟩ ∧
      (DecodeOut.mk "Hello world" false (.str "C1")
          Json.null).continue_conversation = false) ∧
    (handleMessage (some sampleClientData) (.ok "P") ⟨some "c1", "hi"⟩
        (ConversationTracker.mk 300 []) 0 "U1"
        (.response 200 (.ok (Json.obj
          [("error", Json.obj [("message", Json.str "boom")])])))).result =
      .returned ⟨agentErrorMessage "boom",
        some (haConversationId (some "c1") "U1"), false⟩ := by
  refine ⟨⟨rfl, rfl, ?_⟩, ⟨rfl, rfl, ?_⟩, ?_⟩
  · exact claim_C3.1 (sampleTaskFields "working") (.str "rc") Json.null
      ⟨"Done.", true, .str "C1", .str "T1"⟩ rfl rfl
  · exact claim_C3.2.1 sampleMessageFields (.str "rc") Json.null
      ⟨"Hello world", false, .str "C1", Json.null⟩ rfl rfl
  · exact claim_C3.2.2 sampleClientData (.ok "P") ⟨some "c1", "hi"⟩
      (ConversationTracker.mk 300 []) 0 "U1"
      (Json.obj [("error", Json.obj [("message", Json.str "boom")])]) "boom"
      rfl rfl (by decide) rfl

/-- Claim C7: the decoded reply text is the in-order concatenation of the
`text` of every part whose kind tag equals `"text"` (others ignored, all
text parts included) — taken from `status.message.parts` for a Task reply
and from the result's own `parts` for a Message reply; and whenever the
accumulated text is empty the turn speaks the fixed no-content fallback,
never the empty string. -/
theorem claim_C7 :
    (∀ (fields sfields mfields : List (String × Json)) (ps : List Json)
        (ctx tid : Json) (d : DecodeOut),
        jGet (Json.obj fields) "status" = some (Json.obj sfields) →
        jGet (Json.obj sfields) "message" = some (Json.obj mfields) →
        jGetD (Json.obj mfields) "parts" (Json.arr []) = Json.arr ps →
        decodeA2A (Json.obj fields) ctx tid = .ok d →
        d.response_text = specConcatTextParts ps) ∧
    (∀ (fields : List (String × Json)) (ps : List Json) (ctx tid : Json)
        (d : DecodeOut),
        jHasKey (Json.obj fields) "status" = false →
        jHasKey (Json.obj fields) "parts" = true →
        jGetD (Json.obj fields) "parts" Json.null = Json.arr ps →
        decodeA2A (Json.obj fields) ctx tid = .ok d →
        d.response_text = specConcatTextParts ps) ∧
    (∀ (cd : ClientData) (render : RenderOutcome) (ui : UserInput)
        (tr : ConversationTracker) (now : ℚ) (uuid : String) (parsed : Json)
        (d : DecodeOut),
        jsonTruthy cd.agent_url = true → cd.httpx_client_present = true →
        render ≠ .otherException →
        processReply parsed
            (resolvedContextId (resolveTracked tr now ui.conversation_id) uuid)
            (resolvedTaskId (resolveTracked tr now ui.conversation_id)) =
          .ok (.success d) →
        (handleMessage (some cd) render ui tr now uuid
            (.response 200 (.ok parsed))).result =
          .returned ⟨(if d.response_text = "" then noResponseFallback
              else d.response_text),
            some (haConversationId ui.conversation_id uuid),
            d.continue_conversation⟩) ∧
    (∀ s : String, (if s = "" then noResponseFallback else s) ≠ "") := by
  refine ⟨?_, ?_, ?_, ?_⟩
  · intro fields sfields mfields ps ctx tid d hst hmsg hparts hdec
    exact accumParts_eq_spec ps d.response_text
      (decodeA2A_status_text fields sfields mfields ps ctx tid d hst hmsg hparts hdec)
  · intro fields ps ctx tid d hkey hpkey hparts hdec
    exact accumParts_eq_spec ps d.response_text
      (decodeA2A_message_text fields ps ctx tid d hkey hpkey hparts hdec)
  · intro cd render ui tr now uuid parsed d hurl hcl hrender hrep
    rw [handleMessage_valid cd render ui tr now uuid _ hurl hcl hrender]
    simp [coreTurn, hrep]
  · intro s
    by_cases hs : s = ""
    · rw [if_pos hs]; decide
    · rw [if_neg hs]; exact hs

theorem claim_C7_witness :
    (decodeA2A (Json.obj sampleMessageFields) (.str "rc") Json.null =
        .ok ⟨"Hello world", false, .str "C1", Json.null⟩ ∧
      (DecodeOut.mk "Hello world" false (.str "C1") Json.null).response_text =
        specConcatTextParts sampleParts) ∧
    (decodeA2A (Json.obj (sampleTaskFields "completed")) (.str "rc") Json.null =
        .ok ⟨"Done.", false, .str "C1", .str "T1"⟩ ∧
      (DecodeOut.mk "Done." false (.str "C1") (.str "T1")).response_text =
        specConcatTextParts
          [.obj [("kind", .str "text"), ("text", .str "Done.")]]) ∧
    ((handleMessage (some sampleClientData) (.ok "P") ⟨some "c1", "hi"⟩
        (ConversationTracker.mk 300 []) 0 "U1"
        (.response 200 (.ok (Json.obj [("result",
          Json.obj [("status", Json.obj [])])])))).result =
      .returned ⟨(if ("" : String) = "" then noResponseFallback else ""),
        some (haConversationId (some "c1") "U1"), false⟩) ∧
    ((if ("" : String) = "" then noResponseFallback else "") ≠ "") := by
  refine ⟨⟨rfl, ?_⟩, ⟨rfl, ?_⟩, ?_, claim_C7.2.2.2 ""⟩
  · exact claim_C7.2.1 sampleMessageFields sampleParts (.str "rc") Json.null
      ⟨"Hello world", false, .str "C1", Json.null⟩ rfl rfl rfl rfl
  · exact claim_C7.1 (sampleTaskFields "completed")
      [("state", .str "completed"),
       ("message", .obj [("parts", .arr
         [.obj [("kind", .str "text"), ("text", .str "Done.")]])])]
      [("parts", .arr [.obj [("kind", .str "text"), ("text", .str "Done.")]])]
      [.obj [("kind", .str "text"), ("text", .str "Done.")]]
      (.str "rc") Json.null ⟨"Done.", false, .str "C1", .str "T1"⟩
      rfl rfl rfl rfl
  · exact claim_C7.2.2.1 sampleClientData (.ok "P") ⟨some "c1", "hi"⟩
      (ConversationTracker.mk 300 []) 0 "U1"
      (Json.obj [("result", Json.obj [("status", Json.obj [])])])
      ⟨"", false, .str "U1", Json.null⟩ rfl rfl (by decide) rfl

/-- Claim C1: on every turn whose reply decodes successfully, the bridge
stores `(handle ↦ decoded contextId, decoded taskId if
continue_conversation else None)` in the tracker; hence after a completed
(or otherwise non-continuing) Task reply and after every Message reply,
the tracked entry for the handle has no task id. -/
theorem claim_C1 (cd : ClientData) (render : RenderOutcome) (ui : UserInput)
    (tr : ConversationTracker) (now : ℚ) (uuid : String) (parsed : Json)
    (d : DecodeOut)
    (hurl : jsonTruthy cd.agent_url = true)
    (hcl : cd.httpx_client_present = true)
    (hrender : render ≠ .otherException)
    (hrep : processReply parsed
        (resolvedContextId (resolveTracked tr now ui.conversation_id) uuid)
        (resolvedTaskId (resolveTracked tr now ui.conversation_id)) =
      .ok (.success d)) :
    (handleMessage (some cd) render ui tr now uuid
        (.response 200 (.ok parsed))).tracker =
      (trackerAfterLookup tr now ui.conversation_id).store now
        (haConversationId ui.conversation_id uuid) d.response_context_id
        (if d.continue_conversation then d.response_task_id else Json.null) ∧
    (d.continue_conversation = false →
      lookupAssoc (handleMessage (some cd) render ui tr now uuid
          (.response 200 (.ok parsed))).tracker.entries
        (haConversationId ui.conversation_id uuid) =
      some ⟨d.response_context_id, Json.null, now + tr.ttl⟩) := by
  rw [handleMessage_valid cd render ui tr now uuid _ hurl hcl hrender]
  constructor
  · simp [coreTurn, hrep]
  · intro hc
    simp [coreTurn, hrep, hc, ConversationTracker.store,
      lookupAssoc_assocSet_self, trackerAfterLookup_ttl]

theorem claim_C1_witness :
    processReply (Json.obj [("result", Json.obj (sampleTaskFields "completed"))])
        (resolvedContextId (resolveTracked (ConversationTracker.mk 300 []) 0
          (some "c1")) "U1")
        (resolvedTaskId (resolveTracked (ConversationTracker.mk 300 []) 0
          (some "c1"))) =
      .ok (.success ⟨"Done.", false, .str "C1", .str "T1"⟩) ∧
    (handleMessage (some sampleClientData) (.ok "P") ⟨some "c1", "hi"⟩
        (ConversationTracker.mk 300 []) 0 "U1"
        (.response 200 (.ok (Json.obj
          [("result", Json.obj (sampleTaskFields "completed"))])))).tracker =
      (trackerAfterLookup (ConversationTracker.mk 300 []) 0
          (some "c1")).store 0 (haConversationId (some "c1") "U1")
        (Json.str "C1") Json.null ∧
    lookupAssoc (handleMessage (some sampleClientData) (.ok "P")
        ⟨some "c1", "hi"⟩ (ConversationTracker.mk 300 []) 0 "U1"
        (.response 200 (.ok (Json.obj
          [("result", Json.obj (sampleTaskFields "completed"))])))).tracker.entries
      (haConversationId (some "c1") "U1") =
      some ⟨Json.str "C1", Json.null, 0 + 300⟩ := by
  have h := claim_C1 sampleClientData (.ok "P") ⟨some "c1", "hi"⟩
    (ConversationTracker.mk 300 []) 0 "U1"
    (Json.obj [("result", Json.obj (sampleTaskFields "completed"))])
    ⟨"Done.", false, .str "C1", .str "T1"⟩ rfl rfl (by decide) rfl
  exact ⟨rfl, h.1, h.2 rfl⟩

theorem coreTurn_not_propagated (sp : String) (ui : UserInput)
    (tr : ConversationTracker) (now : ℚ) (uuid : String)
    (transport : TransportOutcome) :
    (coreTurn sp ui tr now uuid transport).result ≠ .propagated := by
  unfold coreTurn
  cases transport with
  | fault desc => simp
  | response status body =>
    by_cases hs : status = 200
    · subst hs
      cases body with
      | error desc => simp
      | ok parsed =>
        rcases hpr : processReply parsed
            (resolvedContextId (resolveTracked tr now ui.conversation_id) uuid)
            (resolvedTaskId (resolveTracked tr now ui.conversation_id)) with desc | ro
        · simp [hpr]
        · cases ro with
          | protocolError m => simp [hpr]
          | success d => simp [hpr]
    · simp [hs]

/-- Claim C5 counterexample: with valid configuration, a renderer exception
other than `TemplateError` arises before the `try` at line 168 and
propagates to the host platform — the turn does not return a result. -/
theorem claim_C5_counterexample :
    (handleMessage (some sampleClientData) .otherException ⟨some "c1", "hi"⟩
      (ConversationTracker.mk 300 []) 0 "U1" (.fault "boom")).result =
      .propagated := rfl

/-- Claim C5 amended: provided the prompt renderer raises nothing but
`TemplateError`, no turn propagates an exception — every path returns a
well-formed result — and every exception raised within the transport /
body-parsing / reply-processing stages is converted into the generic
"I encountered an error…" message carrying the exception description, with
`continue_conversation = false`. A non-`TemplateError` renderer exception,
however, propagates. -/
theorem claim_C5_amended (render : RenderOutcome) (ui : UserInput)
    (tr : ConversationTracker) (now : ℚ) (uuid : String)
    (hrender : render ≠ .otherException) :
    (∀ (client_data : Option ClientData) (transport : TransportOutcome),
        (handleMessage client_data render ui tr now uuid transport).result ≠
          .propagated) ∧
    (∀ (cd : ClientData) (desc : String),
        jsonTruthy cd.agent_url = true → cd.httpx_client_present = true →
        (handleMessage (some cd) render ui tr now uuid (.fault desc)).result =
          .returned ⟨genericErrorMessage desc, none, false⟩) ∧
    (∀ (cd : ClientData) (desc : String),
        jsonTruthy cd.agent_url = true → cd.httpx_client_present = true →
        (handleMessage (some cd) render ui tr now uuid
            (.response 200 (.error desc))).result =
          .returned ⟨genericErrorMessage desc, none, false⟩) ∧
    (∀ (cd : ClientData) (parsed : Json) (desc : String),
        jsonTruthy cd.agent_url = true → cd.httpx_client_present = true →
        processReply parsed
            (resolvedContextId (resolveTracked tr now ui.conversation_id) uuid)
            (resolvedTaskId (resolveTracked tr now ui.conversation_id)) =
          .error desc →
        (handleMessage (some cd) render ui tr now uuid
            (.response 200 (.ok parsed))).result =
          .returned ⟨genericErrorMessage desc, none, false⟩) := by
  refine ⟨?_, ?_, ?_, ?_⟩
  · intro client_data transport
    cases client_data with
    | none => simp [handleMessage]
    | some cd =>
      unfold handleMessage
      by_cases hc : (!jsonTruthy cd.agent_url || !cd.httpx_client_present) = true
      · simp [hc]
      · simp only [Bool.not_eq_true] at hc
        simp only [hc, Bool.false_eq_true, if_false]
        cases render with
        | ok s => exact coreTurn_not_propagated _ _ _ _ _ _
        | templateError => exact coreTurn_not_propagated _ _ _ _ _ _
        | otherException => exact absurd rfl hrender
  · intro cd desc hurl hcl
    rw [handleMessage_valid cd render ui tr now uuid _ hurl hcl hrender]
    simp [coreTurn]
  · intro cd desc hurl hcl
    rw [handleMessage_valid cd render ui tr now uuid _ hurl hcl hrender]
    simp [coreTurn]
  · intro cd parsed desc hurl hcl hrep
    rw [handleMessage_valid cd render ui tr now uuid _ hurl hcl hrender]
    simp [coreTurn, hrep]

theorem claim_C5_amended_witness :
    (RenderOutcome.ok "P" ≠ RenderOutcome.otherException) ∧
    (handleMessage (some sampleClientData) (.ok "P") ⟨some "c1", "hi"⟩
        (ConversationTracker.mk 300 []) 0 "U1" (.fault "boom")).result =
      .returned ⟨genericErrorMessage "boom", none, false⟩ ∧
    (handleMessage (some sampleClientData) (.ok "P") ⟨some "c1", "hi"⟩
        (ConversationTracker.mk 300 []) 0 "U1"
        (.response 200 (.error "bad json"))).result =
      .returned ⟨genericErrorMessage "bad json", none, false⟩ :=
  ⟨by decide,
   (claim_C5_amended (.ok "P") ⟨some "c1", "hi"⟩ (ConversationTracker.mk 300 [])
     0 "U1" (by decide)).2.1 sampleClientData "boom" rfl rfl,
   (claim_C5_amended (.ok "P") ⟨some "c1", "hi"⟩ (ConversationTracker.mk 300 [])
     0 "U1" (by decide)).2.2.1 sampleClientData "bad json" rfl rfl⟩

/-- Claim C6 counterexample: a turn ending in a TransportFault (HTTP 500)
does change the tracker's internal state — the initial lookup's lazy prune
deletes the expired entry of another handle — so "the tracker's state is
unchanged by the turn (tracker untouched)" fails (no store occurs, but the
storage differs). -/
theorem claim_C6_counterexample :
    ((handleMessage (some sampleClientData) (.ok "P") ⟨some "c1", "hi"⟩
        (ConversationTracker.mk 300 [("x", ⟨Json.str "cx", Json.null, 1⟩)])
        10 "U1" (.response 500 (.ok Json.null))).tracker).entries = [] ∧
    (ConversationTracker.mk 300
      [("x", ⟨Json.str "cx", Json.null, 1⟩)]).entries ≠ [] :=
  ⟨rfl, by simp⟩

/-- Claim C6 amended: on every turn ending in a TransportFault (non-200
status or transport error) or a ProtocolFault (error field in the reply),
the bridge performs no store — the final tracker is exactly the state left
by the initial lookup (whose only effect is the lazy pruning of already
expired entries; the tracker is untouched when the incoming handle is
absent) — and the result names the failure (the HTTP status, the exception
description, respectively the remote-supplied error message) with
`continue_conversation = false`. -/
theorem claim_C6_amended (cd : ClientData) (render : RenderOutcome)
    (ui : UserInput) (tr : ConversationTracker) (now : ℚ) (uuid : String)
    (hurl : jsonTruthy cd.agent_url = true)
    (hcl : cd.httpx_client_present = true)
    (hrender : render ≠ .otherException) :
    (∀ (status : Nat) (body : Except String Json), status ≠ 200 →
        (handleMessage (some cd) render ui tr now uuid
            (.response status body)).tracker =
          trackerAfterLookup tr now ui.conversation_id ∧
        (handleMessage (some cd) render ui tr now uuid
            (.response status body)).result =
          .returned ⟨httpStatusMessage status,
            some (haConversationId ui.conversation_id uuid), false⟩) ∧
    (∀ desc : String,
        (handleMessage (some cd) render ui tr now uuid (.fault desc)).tracker =
          trackerAfterLookup tr now ui.conversation_id ∧
        (handleMessage (some cd) render ui tr now uuid (.fault desc)).result =
          .returned ⟨genericErrorMessage desc, none, false⟩) ∧
    (∀ (parsed : Json) (message : String),
        processReply parsed
            (resolvedContextId (resolveTracked tr now ui.conversation_id) uuid)
            (resolvedTaskId (resolveTracked tr now ui.conversation_id)) =
          .ok (.protocolError message) →
        (handleMessage (some cd) render ui tr now uuid
            (.response 200 (.ok parsed))).tracker =
          trackerAfterLookup tr now ui.conversation_id ∧
        (handleMessage (some cd) render ui tr now uuid
            (.response 200 (.ok parsed))).result =
          .returned ⟨agentErrorMessage message,
            some (haConversationId ui.conversation_id uuid), false⟩) := by
  refine ⟨?_, ?_, ?_⟩
  · intro status body hs
    rw [handleMessage_valid cd render ui tr now uuid _ hurl hcl hrender]
    constructor <;> simp [coreTurn, hs]
  · intro desc
    rw [handleMessage_valid cd render ui tr now uuid _ hurl hcl hrender]
    constructor <;> simp [coreTurn]
  · intro parsed message hrep
    rw [handleMessage_valid cd render ui tr now uuid _ hurl hcl hrender]
    constructor <;> simp [coreTurn, hrep]

theorem claim_C6_amended_witness :
    ((500 : Nat) ≠ 200) ∧
    (handleMessage (some sampleClientData) (.ok "P") ⟨some "c1", "hi"⟩
        (ConversationTracker.mk 300 [("x", ⟨Json.str "cx", Json.null, 1⟩)])
        10 "U1" (.response 500 (.ok Json.null))).tracker =
      trackerAfterLookup
        (ConversationTracker.mk 300 [("x", ⟨Json.str "cx", Json.null, 1⟩)])
        10 (some "c1") ∧
    (handleMessage (some sampleClientData) (.ok "P") ⟨some "c1", "hi"⟩
        (ConversationTracker.mk 300 [("x", ⟨Json.str "cx", Json.null, 1⟩)])
        10 "U1" (.response 500 (.ok Json.null))).result =
      .returned ⟨httpStatusMessage 500,
        some (haConversationId (some "c1") "U1"), false⟩ := by
  have h := (claim_C6_amended sampleClientData (.ok "P") ⟨some "c1", "hi"⟩
    (ConversationTracker.mk 300 [("x", ⟨Json.str "cx", Json.null, 1⟩)])
    10 "U1" rfl rfl (by decide)).1 500 (.ok Json.null) (by decide)
  exact ⟨by decide, h.1, h.2⟩

theorem coreTurn_wireRequest (sp : String) (ui : UserInput)
    (tr : ConversationTracker) (now : ℚ) (uuid : String)
    (transport : TransportOutcome) :
    (coreTurn sp ui tr now uuid transport).wireRequest =
      some (buildJsonRpcRequest (buildA2AMessage
        (buildMessageText sp ui.text)
        (resolvedContextId (resolveTracked tr now ui.conversation_id) uuid)
        (resolvedTaskId (resolveTracked tr now ui.conversation_id)))) := by
  unfold coreTurn
  cases transport with
  | fault desc => rfl
  | response status body =>
    by_cases hs : status = 200
    · subst hs
      cases body with
      | error desc => simp
      | ok parsed =>
        rcases hpr : processReply parsed
            (resolvedContextId (resolveTracked tr now ui.conversation_id) uuid)
            (resolvedTaskId (resolveTracked tr now ui.conversation_id))
          with desc | ro
        · simp [hpr]
        · cases ro with
          | protocolError m => simp [hpr]
          | success d => simp [hpr]
    · simp [hs]

/-- Claim C8: the outbound JSON-RPC request is independent of the platform
conversation handle — two turns with equal tracker-lookup results, equal
rendered prompt, equal utterance and equal fresh uuid produce identical
wire requests even when their incoming handles differ; only contextId /
taskId identify the conversation on the wire. -/
theorem claim_C8 (client_data : Option ClientData) (render : RenderOutcome)
    (ui₁ ui₂ : UserInput) (tr₁ tr₂ : ConversationTracker) (now₁ now₂ : ℚ)
    (uuid : String) (transport : TransportOutcome)
    (htext : ui₁.text = ui₂.text)
    (htracked : resolveTracked tr₁ now₁ ui₁.conversation_id =
      resolveTracked tr₂ now₂ ui₂.conversation_id) :
    (handleMessage client_data render ui₁ tr₁ now₁ uuid transport).wireRequest =
      (handleMessage client_data render ui₂ tr₂ now₂ uuid transport).wireRequest := by
  cases client_data with
  | none => rfl
  | some cd =>
    unfold handleMessage
    by_cases hc : (!jsonTruthy cd.agent_url || !cd.httpx_client_present) = true
    · simp [hc]
    · simp only [Bool.not_eq_true] at hc
      simp only [hc, Bool.false_eq_true, if_false]
      cases render with
      | otherException => rfl
      | ok s => rw [coreTurn_wireRequest, coreTurn_wireRequest, htext, htracked]
      | templateError =>
        rw [coreTurn_wireRequest, coreTurn_wireRequest, htext, htracked]

theorem claim_C8_witness :
    (("hi" : String) = "hi") ∧
    (resolveTracked (ConversationTracker.mk 300 []) 0 (some "c1") =
      resolveTracked (ConversationTracker.mk 300 []) 0 (some "c2")) ∧
    (handleMessage (some sampleClientData) (.ok "P") ⟨some "c1", "hi"⟩
        (ConversationTracker.mk 300 []) 0 "U1" (.fault "z")).wireRequest =
      (handleMessage (some sampleClientData) (.ok "P") ⟨some "c2", "hi"⟩
        (ConversationTracker.mk 300 []) 0 "U1" (.fault "z")).wireRequest :=
  ⟨rfl, rfl,
   claim_C8 (some sampleClientData) (.ok "P") ⟨some "c1", "hi"⟩
     ⟨some "c2", "hi"⟩ (ConversationTracker.mk 300 [])
     (ConversationTracker.mk 300 []) 0 0 "U1" (.fault "z") rfl rfl⟩

/-- Claim C9: an HTTP 200 reply whose JSON object body has no `error` key
and no dict-valued `result` key still completes as a success — the fixed
no-content fallback is spoken with `continue_conversation = false`, and
the tracker IS updated with the request context id and no task id, so a
previously tracked task id for the handle is cleared. -/
theorem claim_C9 (cd : ClientData) (render : RenderOutcome) (ui : UserInput)
    (tr : ConversationTracker) (now : ℚ) (uuid : String)
    (bfields : List (String × Json))
    (hurl : jsonTruthy cd.agent_url = true)
    (hcl : cd.httpx_client_present = true)
    (hrender : render ≠ .otherException)
    (hnoerr : jHasKey (Json.obj bfields) "error" = false)
    (hres : ∀ v, jGet (Json.obj bfields) "result" = some v →
      ∀ afields : List (String × Json), v ≠ Json.obj afields) :
    (handleMessage (some cd) render ui tr now uuid
        (.response 200 (.ok (Json.obj bfields)))).result =
      .returned ⟨noResponseFallback,
        some (haConversationId ui.conversation_id uuid), false⟩ ∧
    (handleMessage (some cd) render ui tr now uuid
        (.response 200 (.ok (Json.obj bfields)))).tracker =
      (trackerAfterLookup tr now ui.conversation_id).store now
        (haConversationId ui.conversation_id uuid)
        (resolvedContextId (resolveTracked tr now ui.conversation_id) uuid)
        Json.null := by
  have hrep : processReply (Json.obj bfields)
      (resolvedContextId (resolveTracked tr now ui.conversation_id) uuid)
      (resolvedTaskId (resolveTracked tr now ui.conversation_id)) =
      .ok (.success ⟨"", false,
        resolvedContextId (resolveTracked tr now ui.conversation_id) uuid,
        resolvedTaskId (resolveTracked tr now ui.conversation_id)⟩) := by
    unfold processReply
    simp only [pyIn, except_bind_ok, hnoerr, Bool.false_eq_true, if_false]
    cases hr : jGet (Json.obj bfields) "result" with
    | none =>
      have h2 : jHasKey (Json.obj bfields) "result" = false := by
        simp [jHasKey, hr]
      simp [h2]
    | some v =>
      have h2 : jHasKey (Json.obj bfields) "result" = true := by
        simp [jHasKey, hr]
      have h3 : jGetD (Json.obj bfields) "result" Json.null = v := by
        simp [jGetD, hr]
      cases v with
      | obj afields => exact absurd rfl (hres _ hr afields)
      | null => simp [h2, h3]
      | bool b => simp [h2, h3]
      | num n => simp [h2, h3]
      | str s => simp [h2, h3]
      | arr es => simp [h2, h3]
  rw [handleMessage_valid cd render ui tr now uuid _ hurl hcl hrender]
  constructor <;> simp [coreTurn, hrep]

theorem claim_C9_witness :
    (jHasKey (Json.obj [("other", Json.null)]) "error" = false) ∧
    (handleMessage (some sampleClientData) (.ok "P") ⟨some "c1", "hi"⟩
        (ConversationTracker.mk 300 []) 0 "U1"
        (.response 200 (.ok (Json.obj [("other", Json.null)])))).result =
      .returned ⟨noResponseFallback,
        some (haConversationId (some "c1") "U1"), false⟩ ∧
    (handleMessage (some sampleClientData) (.ok "P") ⟨some "c1", "hi"⟩
        (ConversationTracker.mk 300 []) 0 "U1"
        (.response 200 (.ok (Json.obj [("other", Json.null)])))).tracker =
      (trackerAfterLookup (ConversationTracker.mk 300 []) 0 (some "c1")).store 0
        (haConversationId (some "c1") "U1")
        (resolvedContextId (resolveTracked (ConversationTracker.mk 300 []) 0
          (some "c1")) "U1")
        Json.null := by
  have h := claim_C9 sampleClientData (.ok "P") ⟨some "c1", "hi"⟩
    (ConversationTracker.mk 300 []) 0 "U1" [("other", Json.null)]
    rfl rfl (by decide) rfl
    (fun v hv afields => by
      rw [show jGet (Json.obj [("other", Json.null)]) "result" = none from rfl]
        at hv
      simp at hv)
  exact ⟨rfl, h.1, h.2⟩

/-- Claim C10 counterexample: a turn ending in a transport error — a
TransportFault in the spec's taxonomy ("non-200 HTTP status or transport
error") — returns conversation handle `None`, not the resolved handle
"c1", because the raised transport exception lands in the boundary handler
whose result carries `conversation_id = None`. -/
theorem claim_C10_counterexample :
    (handleMessage (some sampleClientData) (.ok "P") ⟨some "c1", "hi"⟩
        (ConversationTracker.mk 300 []) 0 "U1" (.fault "boom")).result =
      .returned ⟨genericErrorMessage "boom", none, false⟩ ∧
    haConversationId (some "c1") "U1" = "c1" :=
  ⟨rfl, rfl⟩

/-- Claim C10 amended: the returned conversation handle is absent on
configuration faults and on every exception caught at the boundary —
including transport errors, unparsable bodies and reply-processing
exceptions — and is the resolved handle (the incoming handle, else the
freshly generated context id) exactly on non-200 HTTP statuses and on
protocol-error replies. -/
theorem claim_C10_amended (cd : ClientData) (render : RenderOutcome)
    (ui : UserInput) (tr : ConversationTracker) (now : ℚ) (uuid : String)
    (hurl : jsonTruthy cd.agent_url = true)
    (hcl : cd.httpx_client_present = true)
    (hrender : render ≠ .otherException) :
    (∀ (render' : RenderOutcome) (transport : TransportOutcome),
        (handleMessage none render' ui tr now uuid transport).result =
          .returned ⟨notConfiguredMessage, none, false⟩) ∧
    (∀ (render' : RenderOutcome) (transport : TransportOutcome)
        (cd' : ClientData),
        (!jsonTruthy cd'.agent_url || !cd'.httpx_client_present) = true →
        (handleMessage (some cd') render' ui tr now uuid transport).result =
          .returned ⟨incompleteConfigMessage, none, false⟩) ∧
    (∀ desc : String,
        (handleMessage (some cd) render ui tr now uuid (.fault desc)).result =
          .returned ⟨genericErrorMessage desc, none, false⟩) ∧
    (∀ desc : String,
        (handleMessage (some cd) render ui tr now uuid
            (.response 200 (.error desc))).result =
          .returned ⟨genericErrorMessage desc, none, false⟩) ∧
    (∀ (parsed : Json) (desc : String),
        processReply parsed
            (resolvedContextId (resolveTracked tr now ui.conversation_id) uuid)
            (resolvedTaskId (resolveTracked tr now ui.conversation_id)) =
          .error desc →
        (handleMessage (some cd) render ui tr now uuid
            (.response 200 (.ok parsed))).result =
          .returned ⟨genericErrorMessage desc, none, false⟩) ∧
    (∀ (status : Nat) (body : Except String Json), status ≠ 200 →
        (handleMessage (some cd) render ui tr now uuid
            (.response status body)).result =
          .returned ⟨httpStatusMessage status,
            some (haConversationId ui.conversation_id uuid), false⟩) ∧
    (∀ (parsed : Json) (message : String),
        processReply parsed
            (resolvedContextId (resolveTracked tr now ui.conversation_id) uuid)
            (resolvedTaskId (resolveTracked tr now ui.conversation_id)) =
          .ok (.protocolError message) →
        (handleMessage (some cd) render ui tr now uuid
            (.response 200 (.ok parsed))).result =
          .returned ⟨agentErrorMessage message,
            some (haConversationId ui.conversation_id uuid), false⟩) ∧
    (haConversationId none uuid = uuid ∧
      ∀ c : String, c ≠ "" → haConversationId (some c) uuid = c) := by
  refine ⟨?_, ?_, ?_, ?_, ?_, ?_, ?_, ?_⟩
  · intro render' transport; rfl
  · intro render' transport cd' hbad
    simp [handleMessage, hbad]
  · intro desc
    rw [handleMessage_valid cd render ui tr now uuid _ hurl hcl hrender]
    simp [coreTurn]
  · intro desc
    rw [handleMessage_valid cd render ui tr now uuid _ hurl hcl hrender]
    simp [coreTurn]
  · intro parsed desc hrep
    rw [handleMessage_valid cd render ui tr now uuid _ hurl hcl hrender]
    simp [coreTurn, hrep]
  · intro status body hs
    rw [handleMessage_valid cd render ui tr now uuid _ hurl hcl hrender]
    simp [coreTurn, hs]
  · intro parsed message hrep
    rw [handleMessage_valid cd render ui tr now uuid _ hurl hcl hrender]
    simp [coreTurn, hrep]
  · exact ⟨rfl, fun c hc => by simp [haConversationId, hc]⟩

theorem claim_C10_amended_witness :
    (handleMessage none (.ok "P") ⟨some "c1", "hi"⟩
        (ConversationTracker.mk 300 []) 0 "U1" (.fault "z")).result =
      .returned ⟨notConfiguredMessage, none, false⟩ ∧
    (handleMessage (some sampleClientData) (.ok "P") ⟨some "c1", "hi"⟩
        (ConversationTracker.mk 300 []) 0 "U1"
        (.response 500 (.ok Json.null))).result =
      .returned ⟨httpStatusMessage 500,
        some (haConversationId (some "c1") "U1"), false⟩ ∧
    haConversationId none "U1" = "U1" := by
  have h := claim_C10_amended sampleClientData (.ok "P") ⟨some "c1", "hi"⟩
    (ConversationTracker.mk 300 []) 0 "U1" rfl rfl (by decide)
  exact ⟨h.1 (.ok "P") (.fault "z"),
    h.2.2.2.2.2.1 500 (.ok Json.null) (by decide),
    h.2.2.2.2.2.2.2.1⟩

end Lucia
